import Mathlib

/-!
Shallow embedding of the dispatch subsystem of `bark-secure-proxy`
(device credential lifecycle, per-device encryption, broadcast fan-out,
delivery-log pagination), translated from the Go sources under
`internal/crypto`, `internal/service`, `internal/storage/bolt` and
`internal/model`.  Machine `int`s are modelled as `Int`, Go strings as
Lean `String` (byte length = UTF-8 byte count), `[]byte` as `List Nat`,
fallible Go calls as `Except String`.  External collaborators (the AES
block primitive, `json.Marshal`, the random source, the Bark HTTP
client) are parameters of the embedding.  The concurrent fan-out of
`Broadcast` is modelled sequentially: the Go code joins all goroutines
before returning and the aggregation order beyond "lookup failures
first" is unspecified, so the sequential interleaving is one of the
admitted schedules.
-/

namespace BarkProxy

/-- UTF-8 bytes of one character (Go strings are UTF-8 byte sequences,
`len` in Go counts these bytes). -/
def charBytes (c : Char) : List Nat :=
  let n := c.toNat
  if n < 0x80 then [n]
  else if n < 0x800 then [0xC0 + n / 64, 0x80 + n % 64]
  else if n < 0x10000 then [0xE0 + n / 4096, 0x80 + n / 64 % 64, 0x80 + n % 64]
  else [0xF0 + n / 262144, 0x80 + n / 4096 % 64, 0x80 + n / 64 % 64, 0x80 + n % 64]

/-- The byte sequence of a Go string. -/
def strBytes (s : String) : List Nat := (s.data.map charBytes).flatten

/-- Go `len(s)` for a string: the number of UTF-8 bytes. -/
def goLen (s : String) : Nat := (strBytes s).length

/-- ASCII whitespace, the fragment of Go `unicode.IsSpace` relevant here. -/
def isSpaceChar (c : Char) : Bool :=
  c = ' ' || c = '\t' || c = '\n' || c = '\x0b' || c = '\x0c' || c = '\r'

/-- Drop leading and trailing whitespace from a character list. -/
def trimChars (l : List Char) : List Char :=
  ((l.dropWhile isSpaceChar).reverse.dropWhile isSpaceChar).reverse

/-- Go `strings.TrimSpace`. -/
def goTrim (s : String) : String := String.mk (trimChars s.data)

/-- Go `strings.ToUpper`. -/
def goUpper (s : String) : String := String.mk (s.data.map Char.toUpper)

/-- Go `strings.ToLower`. -/
def goLower (s : String) : String := String.mk (s.data.map Char.toLower)

/-- Go `strings.EqualFold` (case-insensitive equality, modelled by
lower-casing both sides). -/
def eqFold (a b : String) : Bool := goLower a == goLower b

namespace crypto

/-- The standard base64 alphabet used by Go `encoding/base64.StdEncoding`. -/
def base64Alphabet : List Char :=
  "ABCDEFGHIJKLMNOPQRSTUVWXYZabcdefghijklmnopqrstuvwxyz0123456789+/".data

/-- Character at index `n` of the base64 alphabet. -/
def b64Char (n : Nat) : Char := base64Alphabet.getD n 'A'

/-- Encode byte groups of three into four base64 characters, with `=`
padding for a trailing group of one or two bytes, exactly as
`base64.StdEncoding.EncodeToString` does. -/
def base64Groups : List Nat → List Char
  | b0 :: b1 :: b2 :: rest =>
    let n := b0 % 256 * 65536 + b1 % 256 * 256 + b2 % 256
    b64Char (n / 262144) :: b64Char (n / 4096 % 64) :: b64Char (n / 64 % 64)
      :: b64Char (n % 64) :: base64Groups rest
  | [b0, b1] =>
    let n := b0 % 256 * 65536 + b1 % 256 * 256
    [b64Char (n / 262144), b64Char (n / 4096 % 64), b64Char (n / 64 % 64), '=']
  | [b0] =>
    let n := b0 % 256 * 65536
    [b64Char (n / 262144), b64Char (n / 4096 % 64), '=', '=']
  | [] => []

/-- Go `base64.StdEncoding.EncodeToString`. -/
def base64Encode (bs : List Nat) : String := String.mk (base64Groups bs)

/-- `pkcs7Pad` from `internal/crypto/aes.go`: append `blockSize - len % blockSize`
copies of that count (a full block when the data is already aligned). -/
def pkcs7Pad (data : List Nat) (blockSize : Nat) : List Nat :=
  let pad := blockSize - data.length % blockSize
  data ++ List.replicate pad pad

/-- Split a byte list into 16-byte blocks (the AES block size used by
`cipher.NewCBCEncrypter`'s `CryptBlocks` loop). -/
def chunks16 (l : List Nat) : List (List Nat) :=
  if h : l = [] then []
  else
    have : l.length - 16 < l.length := by
      have hl : 0 < l.length := List.length_pos.mpr h
      omega
    l.take 16 :: chunks16 (l.drop 16)
termination_by l.length
decreasing_by simpa [List.length_drop] using this

/-- CBC chaining: each plaintext block is XORed with the previous
ciphertext block (the IV for the first) before the block cipher is
applied.  `enc` is the keyed block-encryption primitive. -/
def cbcChain (enc : List Nat → List Nat) (prev : List Nat) :
    List (List Nat) → List (List Nat)
  | [] => []
  | b :: bs =>
    let c := enc ((prev.zip b).map fun p => p.1 ^^^ p.2)
    c :: cbcChain enc c bs

/-- `EncryptToBase64` from `internal/crypto/aes.go`, parameterised by the
AES block primitive `blockEnc` (key → block → block, the Go standard
library's cipher).  `aes.NewCipher` is called first and itself rejects
key lengths outside 16/24/32 (so the explicit key-length check that
follows it in the source is unreachable); then the IV length is checked
against the 16-byte AES block size; then the plaintext is PKCS#7-padded,
CBC-encrypted and base64-encoded. -/
def EncryptToBase64 (blockEnc : List Nat → List Nat → List Nat)
    (plaintext key iv : List Nat) : Except String String :=
  if ¬(key.length = 16 ∨ key.length = 24 ∨ key.length = 32) then
    .error "crypto/aes: invalid key size"
  else if key.length ≠ 16 ∧ key.length ≠ 24 ∧ key.length ≠ 32 then
    .error "key must be 16, 24 or 32 bytes"
  else if iv.length ≠ 16 then
    .error "iv must be 16 bytes"
  else
    .ok (base64Encode ((cbcChain (blockEnc key) iv (chunks16 (pkcs7Pad plaintext 16))).flatten))

end crypto

/-! ## Data model (`internal/model`)

`CreatedAt`/`UpdatedAt` timestamps on `Device` are set by the storage
layer and inspected by no claim, so they are not part of the embedded
record.  `NoticeLog` keeps its id and creation time (as an integer
instant) because the log query engine sorts and filters on them. -/

/-- `model.Device` (`internal/model/device.go`). -/
structure Device where
  deviceToken : String
  deviceKey : String
  name : String
  algorithm : String
  mode : String
  padding : String
  encodeKey : String
  iv : String
  status : String
deriving DecidableEq, Repr

/-- `model.DeviceStatusActive`. -/
def DeviceStatusActive : String := "ACTIVE"

/-- `model.DeviceStatusStop`. -/
def DeviceStatusStop : String := "STOP"

/-- `model.NoticeRequest` (`internal/model/notice.go`). -/
structure NoticeRequest where
  title : String := ""
  subtitle : String := ""
  body : String := ""
  group : String := ""
  url : String := ""
  icon : String := ""
  image : String := ""
  deviceKeys : List String := []
deriving DecidableEq, Repr

/-- `model.NoticeResult` (`internal/model/notice.go`). -/
structure NoticeResult where
  deviceKey : String := ""
  status : String := ""
  message : String := ""
deriving DecidableEq, Repr

/-- `model.NoticeSummary`: the aggregate returned by `Broadcast`.  Its
struct declaration is not among the provided sources, but its two fields
are fully determined by their uses in `notice_service.go` (lines
103-106) and by the spec's caller-facing contract `{sendNum, successNum}`. -/
structure NoticeSummary where
  sendNum : Int := 0
  successNum : Int := 0
deriving DecidableEq, Repr

/-- `model.NoticeLog` (`internal/model/notice_log.go`); `createdAt` is an
abstract integer instant, `updatedAt` is inspected by no claim. -/
structure NoticeLog where
  id : Nat := 0
  deviceKey : String := ""
  url : String := ""
  title : String := ""
  body : String := ""
  group : String := ""
  result : String := ""
  status : String := ""
  createdAt : Int := 0
deriving DecidableEq, Repr

/-- `model.NoticeLogFilter` (`internal/model/notice_log.go`). -/
structure NoticeLogFilter where
  deviceKey : String := ""
  group : String := ""
  status : String := ""
  beginTime : Option Int := none
  endTime : Option Int := none
  page : Int := 0
  pageSize : Int := 0
deriving DecidableEq, Repr

/-- `model.NoticeLogPage` (`internal/model/pagination.go`). -/
structure NoticeLogPage where
  data : List NoticeLog
  total : Int
  pages : Int
  pageNum : Int
  pageSize : Int
deriving DecidableEq, Repr

/-! ## Storage (`internal/storage/bolt/bolt.go`)

The Bolt store is modelled as the list of device records in bucket
iteration order (BoltDB iterates keys in byte order of the device
token); storage-backend IO errors are outside the embedding. -/

/-- `Store.GetDeviceByKey`: scan the devices bucket and return the first
device whose `DeviceKey` equals `key`, or `storage.ErrNotFound`. -/
def GetDeviceByKey (store : List Device) (key : String) : Except String Device :=
  match store.find? (fun d => d.deviceKey == key) with
  | some d => .ok d
  | none => .error "not found"

/-- The predicate of `Store.ListActiveDevices`: after trimming and
upper-casing, the status is empty or `ACTIVE`. -/
def isActiveStatus (status : String) : Bool :=
  let st := goUpper (goTrim status)
  st == "" || st == DeviceStatusActive

/-- `Store.ListActiveDevices`: the devices whose normalized status is
empty or `ACTIVE`. -/
def ListActiveDevices (store : List Device) : List Device :=
  store.filter (fun d => isActiveStatus d.status)

/-! ## Notice service (`internal/service/notice_service.go`) -/

/-- `barkclient.CommonResponse` as consumed by `Broadcast` (only `Code`
and `Message` are read). -/
structure PushResponse where
  code : Int := 0
  message : String := ""
deriving DecidableEq, Repr

/-- External collaborators of `NoticeService.Broadcast`: whether the Bark
client is configured, the AES block primitive, `json.Marshal` on the
payload map, the upstream push call per device (error, or an optional
decoded response), and `Client.DeviceEndpoint`. -/
structure NoticeEnv where
  hasBark : Bool
  blockEnc : List Nat → List Nat → List Nat
  jsonMarshal : List (String × String) → List Nat
  push : Device → Except String (Option PushResponse)
  endpoint : String → String

/-- The payload map built by `Broadcast` lines 42-54: the five fixed
fields plus `icon`/`image` only when non-blank. -/
def mkPayload (req : NoticeRequest) : List (String × String) :=
  [("title", req.title), ("subtitle", req.subtitle), ("body", req.body),
    ("group", req.group), ("url", req.url)]
  ++ (if goTrim req.icon ≠ "" then [("icon", req.icon)] else [])
  ++ (if goTrim req.image ≠ "" then [("image", req.image)] else [])

/-- `encryptPayload`: marshal the payload and AES-CBC encrypt it under
the device's own key and IV. -/
def encryptPayload (env : NoticeEnv) (payload : List (String × String))
    (device : Device) : Except String String :=
  crypto.EncryptToBase64 env.blockEnc (env.jsonMarshal payload)
    (strBytes device.encodeKey) (strBytes device.iv)

/-- The log entry built by `appendLog` (id and createdAt are assigned by
the store at append time; they stay at their zero value here). -/
def mkLog (env : NoticeEnv) (device : Device) (req : NoticeRequest)
    (status result : String) : NoticeLog :=
  { deviceKey := device.deviceKey, url := env.endpoint device.deviceKey,
    title := req.title, body := req.body, group := req.group,
    result := result, status := status }

/-- The per-device unit of the fan-out (`Broadcast` lines 68-100):
encrypt, push, derive the `NoticeResult`, and build the log entry that
`appendLog` writes. -/
def dispatchDevice (env : NoticeEnv) (payload : List (String × String))
    (req : NoticeRequest) (device : Device) : NoticeResult × NoticeLog :=
  match encryptPayload env payload device with
  | .error e =>
    ({ deviceKey := device.deviceKey, status := "FAILED", message := e },
      mkLog env device req "FAILED" e)
  | .ok _ =>
    match env.push device with
    | .error pe =>
      ({ deviceKey := device.deviceKey, status := "FAILED", message := pe },
        mkLog env device req "FAILED" pe)
    | .ok resp =>
      let status := match resp with
        | some r => if r.code = 200 then "SUCCESS" else "FAILED"
        | none => "FAILED"
      let message := match resp with
        | some r => r.message
        | none => ""
      ({ deviceKey := device.deviceKey, status := status, message := message },
        mkLog env device req status message)

/-- `pickTargets` loop over explicit device keys: resolve each key
independently; a failed lookup becomes a `FAILED` result carrying that
key and does not stop the remaining lookups. -/
def resolveKeys (store : List Device) : List String → List Device × List NoticeResult
  | [] => ([], [])
  | key :: rest =>
    let acc := resolveKeys store rest
    match GetDeviceByKey store key with
    | .ok d => (d :: acc.1, acc.2)
    | .error e => (acc.1, { deviceKey := key, status := "FAILED", message := e } :: acc.2)

/-- `pickTargets` (`notice_service.go` lines 118-146): with no explicit
keys the target set is `ListActiveDevices`, otherwise each key is
resolved independently. -/
def pickTargets (store : List Device) (deviceKeys : List String) :
    List Device × List NoticeResult :=
  if deviceKeys.isEmpty then (ListActiveDevices store, [])
  else resolveKeys store deviceKeys

/-- What `Broadcast` produces: the Go return triple plus the log entries
appended during the fan-out. -/
structure BroadcastOut where
  summary : NoticeSummary
  results : List NoticeResult
  err : Option String
  logs : List NoticeLog
deriving Repr

/-- `NoticeService.Broadcast` (`notice_service.go` lines 29-108): body
validation, client check, target resolution, sequentialised fan-out,
aggregation.  The goroutine fan-out joins on a `WaitGroup` before the
aggregates are read, so its observable outcome is the multiset of
per-device results appended after the lookup failures; the embedding
fixes the target-list order as the representative interleaving. -/
def Broadcast (env : NoticeEnv) (store : List Device) (req : NoticeRequest) :
    BroadcastOut :=
  if goTrim req.body = "" then
    { summary := {}, results := [], err := some "body is required", logs := [] }
  else if ¬ env.hasBark then
    { summary := {}, results := [], err := some "bark client not configured", logs := [] }
  else
    let picked := pickTargets store req.deviceKeys
    let targets := picked.1
    let lookupFailures := picked.2
    if targets.isEmpty then
      { summary := {}, results := lookupFailures,
        err := some "no target devices resolved", logs := [] }
    else
      let payload := mkPayload req
      let outcomes := targets.map (dispatchDevice env payload req)
      let deviceResults := outcomes.map Prod.fst
      { summary :=
          { sendNum := targets.length,
            successNum := (deviceResults.filter (fun r => r.status == "SUCCESS")).length },
        results := lookupFailures ++ deviceResults,
        err := none,
        logs := outcomes.map Prod.snd }

/-! ## Device service (`internal/service/device_service.go`) -/

/-- The `Crypto` section of `config.Config` (`internal/config/config.go`). -/
structure CryptoConfig where
  defaultAlgorithm : String := "AES"
  defaultMode : String := "CBC"
  defaultPadding : String := "PKCS7Padding"
  keyBytes : Nat := 32
  ivBytes : Nat := 16
deriving DecidableEq, Repr

/-- `service.DeviceRequest`. -/
structure DeviceRequest where
  deviceToken : String := ""
  deviceKey : String := ""
  name : String := ""
  algorithm : String := ""
  mode : String := ""
  padding : String := ""
  encodeKey : String := ""
  iv : String := ""
  status : String := ""
  registerKey : String := ""
deriving DecidableEq, Repr

/-- External collaborators of `DeviceService.Upsert`: the random string
generator `crypto.GenerateString` (length → generated string or entropy
failure), whether a Bark client is configured, and the outcome of
`bark.Register(deviceToken, registerKey)` for this call (an error, or
the device key from the response — `""` models a nil response or an
empty key field). -/
structure DeviceEnv where
  gen : Nat → Except String String
  hasBark : Bool
  register : Except String String

/-- `firstNonEmpty`: the first argument whose trimmed form is non-empty,
returned untrimmed; `""` when none is. -/
def firstNonEmpty : List String → String
  | [] => ""
  | v :: rest => if goTrim v ≠ "" then v else firstNonEmpty rest

/-- `isValidKeyLength`: Go `len` of the key is 16, 24 or 32. -/
def isValidKeyLength (key : String) : Bool :=
  goLen key == 16 || goLen key == 24 || goLen key == 32

/-- The fresh record `Upsert` starts from when the token is unknown. -/
def blankDevice (token : String) : Device :=
  { deviceToken := token, deviceKey := "", name := "", algorithm := "",
    mode := "", padding := "", encodeKey := "", iv := "", status := "" }

/-- The record `Upsert` merges into: the stored device when the token is
found, a fresh one otherwise. -/
def storedOr (stored : Option Device) (req : DeviceRequest) : Device :=
  match stored with
  | some d => d
  | none => blankDevice req.deviceToken

/-- The `EncodeKey` merge of `Upsert` (lines 104-114): a key supplied by
the request is trusted verbatim; otherwise the stored key is kept when
non-empty; otherwise one is generated with the configured length. -/
def mergedEncodeKey (gen : Nat → Except String String) (cfg : CryptoConfig)
    (stored : Option Device) (req : DeviceRequest) : Except String String :=
  if req.encodeKey = "" then
    if (storedOr stored req).encodeKey = "" then gen cfg.keyBytes
    else .ok (storedOr stored req).encodeKey
  else .ok req.encodeKey

/-- The `IV` merge of `Upsert` (lines 116-126), symmetric to the key merge. -/
def mergedIV (gen : Nat → Except String String) (cfg : CryptoConfig)
    (stored : Option Device) (req : DeviceRequest) : Except String String :=
  if req.iv = "" then
    if (storedOr stored req).iv = "" then gen cfg.ivBytes
    else .ok (storedOr stored req).iv
  else .ok req.iv

/-- The merged record of `Upsert` before validation (lines 98-130):
simple fields overwritten from the request (with defaults), the merged
secret and IV, and the device-key override. -/
def mergeDevice (cfg : CryptoConfig) (stored : Option Device)
    (req : DeviceRequest) (ekey iv : String) : Device :=
  { storedOr stored req with
    name := req.name,
    status := firstNonEmpty [goUpper req.status, DeviceStatusActive],
    algorithm := firstNonEmpty [req.algorithm, cfg.defaultAlgorithm],
    mode := firstNonEmpty [req.mode, cfg.defaultMode],
    padding := firstNonEmpty [req.padding, cfg.defaultPadding],
    encodeKey := ekey, iv := iv,
    deviceKey := if req.deviceKey ≠ "" then req.deviceKey else (storedOr stored req).deviceKey }

/-- The tail of `Upsert` (lines 132-157): length validation of the
merged credentials, then upstream registration when the device key is
still empty. -/
def validateAndRegister (env : DeviceEnv) (cfg : CryptoConfig) (d2 : Device) :
    Except String Device :=
  if ¬ isValidKeyLength d2.encodeKey then
    .error "encodeKey must be 16, 24 or 32 characters"
  else if goLen d2.iv ≠ cfg.ivBytes then
    .error ("iv must be " ++ toString cfg.ivBytes ++ " characters")
  else if d2.deviceKey = "" then
    if ¬ env.hasBark then
      .error "bark client not configured, cannot register device"
    else
      match env.register with
      | .error e => .error e
      | .ok k =>
        if k = "" then .error "register failed: empty device key"
        else .ok { d2 with deviceKey := k }
  else .ok d2

/-- `DeviceService.Upsert` (lines 85-158): token validation, merge of
the simple fields, secret/IV merge, device-key override, length
validation, upstream registration when the device key is still empty. -/
def Upsert (env : DeviceEnv) (cfg : CryptoConfig) (stored : Option Device)
    (req : DeviceRequest) : Except String Device :=
  if goTrim req.deviceToken = "" then .error "deviceToken is required"
  else
    match mergedEncodeKey env.gen cfg stored req with
    | .error e => .error e
    | .ok ekey =>
      match mergedIV env.gen cfg stored req with
      | .error e => .error e
      | .ok iv => validateAndRegister env cfg (mergeDevice cfg stored req ekey iv)

/-- The stored record for `req.deviceToken` after an `Upsert` call: the
only store write is the final `store.UpsertDevice`, so an error leaves
the record untouched and a success replaces it. -/
def UpsertStore (env : DeviceEnv) (cfg : CryptoConfig) (stored : Option Device)
    (req : DeviceRequest) : Option Device :=
  match Upsert env cfg stored req with
  | .ok d => some d
  | .error _ => stored

/-! ## Notice log service (`internal/service/notice_log_service.go`) -/

/-- One filter step of `filteredLogs` (lines 174-191): equality filters
are case-insensitive and skipped when the filter field is empty; the
time range is inclusive. -/
def matchesFilter (f : NoticeLogFilter) (log : NoticeLog) : Bool :=
  (f.deviceKey == "" || eqFold log.deviceKey f.deviceKey) &&
  (f.group == "" || eqFold log.group f.group) &&
  (f.status == "" || eqFold log.status f.status) &&
  (f.beginTime.all fun b => decide (b ≤ log.createdAt)) &&
  (f.endTime.all fun e => decide (log.createdAt ≤ e))

/-- Insert a log into a list kept in descending `createdAt` order. -/
def insertByTime (x : NoticeLog) : List NoticeLog → List NoticeLog
  | [] => [x]
  | y :: ys => if y.createdAt < x.createdAt then x :: y :: ys else y :: insertByTime x ys

/-- The `sort.Slice(..., CreatedAt.After)` step: newest first.  The Go
sort is unstable, so any order consistent with descending `createdAt`
is admissible; the embedding picks insertion sort as the representative. -/
def sortNewestFirst (l : List NoticeLog) : List NoticeLog := l.foldr insertByTime []

/-- `filteredLogs`: filter then sort newest-first. -/
def filteredLogs (f : NoticeLogFilter) (logs : List NoticeLog) : List NoticeLog :=
  sortNewestFirst (logs.filter (matchesFilter f))

/-- `NoticeLogService.Query` (lines 25-61): normalize page/pageSize,
clamp the slice bounds into `[0,total]`, and build the page. -/
def Query (f : NoticeLogFilter) (logs : List NoticeLog) : NoticeLogPage :=
  let flt := filteredLogs f logs
  let total : Int := flt.length
  let pageSize : Int := if f.pageSize ≤ 0 then 10 else if 100 < f.pageSize then 100 else f.pageSize
  let page : Int := if f.page ≤ 0 then 1 else f.page
  let start0 := (page - 1) * pageSize
  let start := if total < start0 then total else start0
  let stop0 := start + pageSize
  let stop := if total < stop0 then total else stop0
  { data := (flt.drop start.toNat).take (stop - start).toNat,
    total := total,
    pages := (total + pageSize - 1) / pageSize,
    pageNum := page,
    pageSize := pageSize }

/-! ## Concrete fixtures used to instantiate the theorems -/

/-- A trivial standing-in block primitive for instantiating the
`blockEnc` parameter on concrete runs. -/
def wBlock : List Nat → List Nat → List Nat := fun _ b => b

/-- A notice environment with a configured client whose pushes all
answer code 200. -/
def wEnvN : NoticeEnv :=
  { hasBark := true, blockEnc := wBlock, jsonMarshal := fun _ => [],
    push := fun _ => .ok (some { code := 200, message := "ok" }),
    endpoint := fun k => k }

/-- A registered, encryption-ready, `ACTIVE` device. -/
def wDevGood : Device :=
  { blankDevice "t1" with
    deviceKey := "k1", encodeKey := "0123456789abcdef",
    iv := "0123456789abcdef", status := "ACTIVE" }

/-- A registered device whose status field is the empty string. -/
def wDevBlankStatus : Device := { blankDevice "t2" with deviceKey := "k7" }

/-- A device environment whose random source fails and whose upstream
is never consulted successfully. -/
def wEnvD : DeviceEnv :=
  { gen := fun _ => .error "entropy exhausted", hasBark := false,
    register := .error "unused" }

/-- An upsert request carrying full credentials and an unknown status
word. -/
def wReq8 : DeviceRequest :=
  { deviceToken := "tok-1", deviceKey := "k1",
    encodeKey := "0123456789abcdef", iv := "0123456789abcdef", status := "bogus" }

/-- A stored device with non-empty credentials, for the preservation
runs. -/
def wDevStored : Device :=
  { blankDevice "tok-1" with
    deviceKey := "k1", name := "old name",
    encodeKey := "0123456789abcdef", iv := "fedcba9876543210", status := "ACTIVE" }

/-- An upsert request that omits every optional field. -/
def wReqEmpty : DeviceRequest := { deviceToken := "tok-1" }

/-- An upsert request carrying a 5-character secret. -/
def wReqShort : DeviceRequest :=
  { deviceToken := "tok-1", deviceKey := "k1",
    encodeKey := "short", iv := "0123456789abcdef" }

/-- 25 log entries with distinct instants. -/
def wLogs : List NoticeLog :=
  (List.range 25).map fun i => { id := i, createdAt := (i : Int) }

/-- The filter of the 25-entry pagination scenario. -/
def wFilter : NoticeLogFilter := { page := 3, pageSize := 10 }

/-- A broadcast request with a body and no explicit targets. -/
def wReqB : NoticeRequest := { body := "hi" }

/-- A broadcast request naming one unknown and one known device key. -/
def wReqKeys : NoticeRequest := { body := "hi", deviceKeys := ["nope", "k1"] }

/-- The record produced by upserting `wReqEmpty` over `wDevStored`. -/
def wRes3 : Device :=
  { deviceToken := "tok-1", deviceKey := "k1", name := "", algorithm := "AES",
    mode := "CBC", padding := "PKCS7Padding", encodeKey := "0123456789abcdef",
    iv := "fedcba9876543210", status := "ACTIVE" }

/-- The record produced by upserting `wReq8` into an empty store. -/
def wRes8 : Device :=
  { deviceToken := "tok-1", deviceKey := "k1", name := "", algorithm := "AES",
    mode := "CBC", padding := "PKCS7Padding", encodeKey := "0123456789abcdef",
    iv := "0123456789abcdef", status := "BOGUS" }

/-! ## Shared lemmas -/

/-- Resolution over explicit keys equals a filterMap of successful
lookups paired with one `FAILED` result per key that is not found, in
key order. -/
theorem resolveKeys_eq (store : List Device) (keys : List String) :
    resolveKeys store keys =
      (keys.filterMap (fun k => store.find? (fun d => d.deviceKey == k)),
       (keys.filter (fun k => (store.find? (fun d => d.deviceKey == k)).isNone)).map
         (fun k => { deviceKey := k, status := "FAILED", message := "not found" })) := by
  induction keys with
  | nil => rfl
  | cons k rest ih =>
    simp only [resolveKeys, ih, GetDeviceByKey]
    cases hf : store.find? (fun d => d.deviceKey == k) <;> simp [hf]

/-- Every per-device outcome carries that device's key. -/
theorem dispatch_result_key (env : NoticeEnv) (payload : List (String × String))
    (req : NoticeRequest) (d : Device) :
    (dispatchDevice env payload req d).1.deviceKey = d.deviceKey := by
  unfold dispatchDevice
  split
  · rfl
  · split <;> rfl

/-- Aggregation shape of a broadcast whose target set is non-empty:
no error, `sendNum` counts the resolved targets, the results are the
lookup failures followed by exactly one outcome per target, and
`successNum` counts the per-device `SUCCESS` outcomes. -/
theorem broadcast_resolved_core (env : NoticeEnv) (store : List Device) (req : NoticeRequest)
    (hbody : goTrim req.body ≠ "") (hbark : env.hasBark = true)
    (hne : (pickTargets store req.deviceKeys).1 ≠ []) :
    (Broadcast env store req).err = none ∧
    (Broadcast env store req).summary.sendNum = ((pickTargets store req.deviceKeys).1.length : Int) ∧
    (Broadcast env store req).results =
      (pickTargets store req.deviceKeys).2 ++
        (pickTargets store req.deviceKeys).1.map
          (fun d => (dispatchDevice env (mkPayload req) req d).1) ∧
    (Broadcast env store req).summary.successNum =
      ((((pickTargets store req.deviceKeys).1.map
          (fun d => (dispatchDevice env (mkPayload req) req d).1)).filter
            (fun r => r.status == "SUCCESS")).length : Int) ∧
    ∀ d ∈ (pickTargets store req.deviceKeys).1,
      (dispatchDevice env (mkPayload req) req d).1.deviceKey = d.deviceKey := by
  have hne' : (pickTargets store req.deviceKeys).1.isEmpty = false := by
    simpa [List.isEmpty_iff] using hne
  refine ⟨?_, ?_, ?_, ?_, fun d _ => dispatch_result_key env (mkPayload req) req d⟩ <;>
    simp [Broadcast, hbody, hbark, hne', List.map_map, Function.comp_def]

/-- Projection of the merged record: the merged secret. -/
theorem mergeDevice_encodeKey (cfg : CryptoConfig) (stored : Option Device)
    (req : DeviceRequest) (ekey ivv : String) :
    (mergeDevice cfg stored req ekey ivv).encodeKey = ekey := rfl

/-- Projection of the merged record: the merged IV. -/
theorem mergeDevice_iv (cfg : CryptoConfig) (stored : Option Device)
    (req : DeviceRequest) (ekey ivv : String) :
    (mergeDevice cfg stored req ekey ivv).iv = ivv := rfl

/-- When the request omits the secret and the stored one is non-empty,
the merge keeps the stored secret and consults no randomness. -/
theorem mergedEncodeKey_of_stored (gen : Nat → Except String String) (cfg : CryptoConfig)
    (d : Device) (req : DeviceRequest) (hreq : req.encodeKey = "") (hd : d.encodeKey ≠ "") :
    mergedEncodeKey gen cfg (some d) req = .ok d.encodeKey := by
  simp [mergedEncodeKey, hreq, storedOr, hd]

/-- When the request omits the IV and the stored one is non-empty, the
merge keeps the stored IV and consults no randomness. -/
theorem mergedIV_of_stored (gen : Nat → Except String String) (cfg : CryptoConfig)
    (d : Device) (req : DeviceRequest) (hreq : req.iv = "") (hd : d.iv ≠ "") :
    mergedIV gen cfg (some d) req = .ok d.iv := by
  simp [mergedIV, hreq, storedOr, hd]

/-- A string of valid key length is non-empty. -/
theorem isValidKeyLength_ne_empty (s : String) (h : isValidKeyLength s = true) : s ≠ "" := by
  intro hs
  subst hs
  exact absurd h (by decide)

/-- A string of positive byte length is non-empty. -/
theorem goLen_pos_ne_empty (s : String) (h : goLen s ≠ 0) : s ≠ "" := by
  intro hs
  subst hs
  exact h rfl

/-- Inversion of the validation/registration tail on success: every
field but the device key is passed through, the credentials satisfied
the length checks, and the final device key is non-empty. -/
theorem validateAndRegister_ok_fields (env : DeviceEnv) (cfg : CryptoConfig) (d d' : Device)
    (h : validateAndRegister env cfg d = .ok d') :
    d'.name = d.name ∧ d'.status = d.status ∧ d'.encodeKey = d.encodeKey ∧ d'.iv = d.iv ∧
    d'.algorithm = d.algorithm ∧ d'.mode = d.mode ∧ d'.padding = d.padding ∧
    d'.deviceToken = d.deviceToken ∧
    isValidKeyLength d.encodeKey = true ∧ goLen d.iv = cfg.ivBytes ∧ d'.deviceKey ≠ "" := by
  unfold validateAndRegister at h
  split at h
  · simp at h
  next hvalid =>
    split at h
    · simp at h
    next hiv =>
      split at h
      next hdk =>
        split at h
        · simp at h
        next hbark =>
          split at h
          · simp at h
          next k hk =>
            split at h
            · simp at h
            next hkne =>
              cases h
              simp_all [not_not]
      next hdk =>
        cases h
        simp_all [not_not]

/-- Inversion of a successful `Upsert`: the merges succeeded, the token
was present, and the produced record carries the request's name, the
normalized status, the merged validated credentials, and a non-empty
device key. -/
theorem Upsert_ok_shape (env : DeviceEnv) (cfg : CryptoConfig) (stored : Option Device)
    (req : DeviceRequest) (d' : Device) (h : Upsert env cfg stored req = .ok d') :
    ∃ ekey ivv, mergedEncodeKey env.gen cfg stored req = .ok ekey ∧
      mergedIV env.gen cfg stored req = .ok ivv ∧
      goTrim req.deviceToken ≠ "" ∧
      d'.name = req.name ∧
      d'.status = firstNonEmpty [goUpper req.status, DeviceStatusActive] ∧
      d'.encodeKey = ekey ∧ d'.iv = ivv ∧
      isValidKeyLength d'.encodeKey = true ∧ goLen d'.iv = cfg.ivBytes ∧
      d'.deviceKey ≠ "" := by
  unfold Upsert at h
  split at h
  · simp at h
  next htok =>
    split at h
    · simp at h
    next ekey hek =>
      split at h
      · simp at h
      next ivv hiv =>
        obtain ⟨hname, hstat, hkey, hivf, _, _, _, _, hval, hlen, hdk⟩ :=
          validateAndRegister_ok_fields env cfg _ d' h
        refine ⟨ekey, ivv, hek, hiv, htok, ?_, ?_, ?_, ?_, ?_, ?_, ?_⟩
        · simpa [mergeDevice] using hname
        · simpa [mergeDevice] using hstat
        · simpa [mergeDevice] using hkey
        · simpa [mergeDevice] using hivf
        · rw [hkey]
          simpa [mergeDevice] using hval
        · rw [hivf]
          simpa [mergeDevice] using hlen
        · exact hdk

/-- A record that passes validation with a device key already present is
returned unchanged. -/
theorem validateAndRegister_ok_of (env : DeviceEnv) (cfg : CryptoConfig) (d : Device)
    (h1 : isValidKeyLength d.encodeKey = true) (h2 : goLen d.iv = cfg.ivBytes)
    (h3 : d.deviceKey ≠ "") :
    validateAndRegister env cfg d = .ok d := by
  simp [validateAndRegister, h1, h2, h3]

/-! ## Claim theorems -/

/-- Claim C1: whenever at least one target device resolves, `Broadcast`
returns no error, `sendNum` equals the number of resolved targets
(lookup failures excluded), `successNum` equals the number of per-device
`SUCCESS` results, and the results list is the lookup failures followed
by exactly one result per resolved device, each carrying that device's
key, with none duplicated or omitted. -/
theorem broadcast_aggregation (env : NoticeEnv) (store : List Device) (req : NoticeRequest)
    (hbody : goTrim req.body ≠ "") (hbark : env.hasBark = true)
    (hne : (pickTargets store req.deviceKeys).1 ≠ []) :
    (Broadcast env store req).err = none ∧
    (Broadcast env store req).summary.sendNum = ((pickTargets store req.deviceKeys).1.length : Int) ∧
    (Broadcast env store req).results =
      (pickTargets store req.deviceKeys).2 ++
        (pickTargets store req.deviceKeys).1.map
          (fun d => (dispatchDevice env (mkPayload req) req d).1) ∧
    (Broadcast env store req).summary.successNum =
      ((((pickTargets store req.deviceKeys).1.map
          (fun d => (dispatchDevice env (mkPayload req) req d).1)).filter
            (fun r => r.status == "SUCCESS")).length : Int) ∧
    ∀ d ∈ (pickTargets store req.deviceKeys).1,
      (dispatchDevice env (mkPayload req) req d).1.deviceKey = d.deviceKey :=
  broadcast_resolved_core env store req hbody hbark hne

/-- Witness for C1: a concrete broadcast to one ready device. -/
theorem broadcast_aggregation_witness :
    (Broadcast wEnvN [wDevGood] wReqB).err = none ∧
    (Broadcast wEnvN [wDevGood] wReqB).summary.sendNum =
      ((pickTargets [wDevGood] wReqB.deviceKeys).1.length : Int) ∧
    (Broadcast wEnvN [wDevGood] wReqB).results =
      (pickTargets [wDevGood] wReqB.deviceKeys).2 ++
        (pickTargets [wDevGood] wReqB.deviceKeys).1.map
          (fun d => (dispatchDevice wEnvN (mkPayload wReqB) wReqB d).1) ∧
    (Broadcast wEnvN [wDevGood] wReqB).summary.successNum =
      ((((pickTargets [wDevGood] wReqB.deviceKeys).1.map
          (fun d => (dispatchDevice wEnvN (mkPayload wReqB) wReqB d).1)).filter
            (fun r => r.status == "SUCCESS")).length : Int) ∧
    ∀ d ∈ (pickTargets [wDevGood] wReqB.deviceKeys).1,
      (dispatchDevice wEnvN (mkPayload wReqB) wReqB d).1.deviceKey = d.deviceKey :=
  broadcast_aggregation wEnvN [wDevGood] wReqB (by decide) (by decide) (by decide)

/-- Claim C2: with a non-empty explicit key list each key is resolved
independently (a lookup failure yields a `FAILED` result carrying that
key and does not stop the rest); if zero devices resolve, `Broadcast`
fails with the no-targets error while still returning the
lookup-failure results; with one unknown and one known key the result
list has exactly 2 entries and `sendNum` is 1. -/
theorem broadcast_explicit_keys (env : NoticeEnv) (store : List Device) (req : NoticeRequest)
    (hbody : goTrim req.body ≠ "") (hbark : env.hasBark = true)
    (hkeys : req.deviceKeys ≠ []) :
    (pickTargets store req.deviceKeys =
      (req.deviceKeys.filterMap (fun k => store.find? (fun d => d.deviceKey == k)),
       (req.deviceKeys.filter (fun k => (store.find? (fun d => d.deviceKey == k)).isNone)).map
         (fun k => { deviceKey := k, status := "FAILED", message := "not found" }))) ∧
    ((pickTargets store req.deviceKeys).1 = [] →
      Broadcast env store req =
        { summary := {}, results := (pickTargets store req.deviceKeys).2,
          err := some "no target devices resolved", logs := [] }) ∧
    (∀ u k d, req.deviceKeys = [u, k] →
      store.find? (fun x => x.deviceKey == u) = none →
      store.find? (fun x => x.deviceKey == k) = some d →
      (Broadcast env store req).results.length = 2 ∧
      (Broadcast env store req).summary.sendNum = 1) := by
  have hk' : req.deviceKeys.isEmpty = false := by
    simpa [List.isEmpty_iff] using hkeys
  refine ⟨?_, ?_, ?_⟩
  · simp [pickTargets, hk', resolveKeys_eq]
  · intro hempty
    have he : (pickTargets store req.deviceKeys).1.isEmpty = true := by
      simp [hempty]
    simp [Broadcast, hbody, hbark, he]
  · intro u k d hkeq hu hk
    have hpt : pickTargets store req.deviceKeys =
        ([d], [{ deviceKey := u, status := "FAILED", message := "not found" }]) := by
      rw [hkeq]
      simp [pickTargets, resolveKeys_eq, hu, hk]
    obtain ⟨_, hsend, hres, _, _⟩ :=
      broadcast_resolved_core env store req hbody hbark (by rw [hpt]; simp)
    constructor
    · rw [hres, hpt]
      simp
    · rw [hsend, hpt]
      simp

/-- Witness for C2: one unknown and one known key against a one-device
store. -/
theorem broadcast_explicit_keys_witness :
    (Broadcast wEnvN [wDevGood] wReqKeys).results.length = 2 ∧
    (Broadcast wEnvN [wDevGood] wReqKeys).summary.sendNum = 1 :=
  (broadcast_explicit_keys wEnvN [wDevGood] wReqKeys (by decide) (by decide)
    (by decide)).2.2 "nope" "k1" wDevGood rfl (by decide) (by decide)

/-- Claim C3: an `Upsert` that omits the secret or the IV while the
stored device holds a non-empty value leaves the stored value unchanged
(whether the call succeeds or fails); the merge consults the random
generator only when both the request and the stored record lack the
value; and a second identical `Upsert` with empty secret and IV
succeeds and leaves both values byte-identical. -/
theorem upsert_preserves_credentials
    (env env2 : DeviceEnv) (cfg : CryptoConfig) (d d1 : Device)
    (stored0 : Option Device) (req : DeviceRequest) :
    (req.encodeKey = "" → d.encodeKey ≠ "" →
      ∃ d', UpsertStore env cfg (some d) req = some d' ∧ d'.encodeKey = d.encodeKey) ∧
    (req.iv = "" → d.iv ≠ "" →
      ∃ d', UpsertStore env cfg (some d) req = some d' ∧ d'.iv = d.iv) ∧
    ((req.encodeKey ≠ "" ∨ d.encodeKey ≠ "") →
      ∀ gen', mergedEncodeKey env.gen cfg (some d) req = mergedEncodeKey gen' cfg (some d) req) ∧
    ((req.iv ≠ "" ∨ d.iv ≠ "") →
      ∀ gen', mergedIV env.gen cfg (some d) req = mergedIV gen' cfg (some d) req) ∧
    (0 < cfg.ivBytes → req.encodeKey = "" → req.iv = "" →
      Upsert env cfg stored0 req = .ok d1 →
      ∃ d2, Upsert env2 cfg (some d1) req = .ok d2 ∧
        d2.encodeKey = d1.encodeKey ∧ d2.iv = d1.iv) := by
  refine ⟨?_, ?_, ?_, ?_, ?_⟩
  · intro hre hde
    cases hU : Upsert env cfg (some d) req with
    | error e => exact ⟨d, by simp [UpsertStore, hU], rfl⟩
    | ok d' =>
      obtain ⟨ekey, ivv, hek, _, _, _, _, hdk, _⟩ := Upsert_ok_shape env cfg (some d) req d' hU
      rw [mergedEncodeKey_of_stored env.gen cfg d req hre hde] at hek
      exact ⟨d', by simp [UpsertStore, hU], by rw [hdk, Except.ok.inj hek]⟩
  · intro hri hdi
    cases hU : Upsert env cfg (some d) req with
    | error e => exact ⟨d, by simp [UpsertStore, hU], rfl⟩
    | ok d' =>
      obtain ⟨ekey, ivv, _, hiv, _, _, _, _, hdv, _⟩ := Upsert_ok_shape env cfg (some d) req d' hU
      rw [mergedIV_of_stored env.gen cfg d req hri hdi] at hiv
      exact ⟨d', by simp [UpsertStore, hU], by rw [hdv, Except.ok.inj hiv]⟩
  · rintro (hre | hde) gen'
    · simp [mergedEncodeKey, hre]
    · simp only [mergedEncodeKey, storedOr]
      split <;> simp [hde]
  · rintro (hri | hdi) gen'
    · simp [mergedIV, hri]
    · simp only [mergedIV, storedOr]
      split <;> simp [hdi]
  · intro hivpos hre hri hU1
    obtain ⟨ekey, ivv, _, _, htok, _, _, _, _, hval1, hlen1, hdk1⟩ :=
      Upsert_ok_shape env cfg stored0 req d1 hU1
    have hne1 : d1.encodeKey ≠ "" := isValidKeyLength_ne_empty _ hval1
    have hni1 : d1.iv ≠ "" := goLen_pos_ne_empty _ (by omega)
    have hek2 : mergedEncodeKey env2.gen cfg (some d1) req = .ok d1.encodeKey :=
      mergedEncodeKey_of_stored env2.gen cfg d1 req hre hne1
    have hiv2 : mergedIV env2.gen cfg (some d1) req = .ok d1.iv :=
      mergedIV_of_stored env2.gen cfg d1 req hri hni1
    refine ⟨mergeDevice cfg (some d1) req d1.encodeKey d1.iv, ?_, rfl, rfl⟩
    simp only [Upsert, if_neg htok, hek2, hiv2]
    refine validateAndRegister_ok_of env2 cfg _ ?_ ?_ ?_
    · rw [mergeDevice_encodeKey]
      exact hval1
    · rw [mergeDevice_iv]
      exact hlen1
    · show (if req.deviceKey ≠ "" then req.deviceKey else (storedOr (some d1) req).deviceKey) ≠ ""
      split
      · assumption
      · exact hdk1

/-- Witness for C3: the preservation and idempotence conjuncts at a
stored device with full credentials and an all-empty request. -/
theorem upsert_preserves_credentials_witness :
    (∃ d', UpsertStore wEnvD {} (some wDevStored) wReqEmpty = some d' ∧
      d'.encodeKey = wDevStored.encodeKey) ∧
    (∃ d', UpsertStore wEnvD {} (some wDevStored) wReqEmpty = some d' ∧
      d'.iv = wDevStored.iv) ∧
    (∃ d2, Upsert wEnvD {} (some wRes3) wReqEmpty = .ok d2 ∧
      d2.encodeKey = wRes3.encodeKey ∧ d2.iv = wRes3.iv) :=
  ⟨(upsert_preserves_credentials wEnvD wEnvD {} wDevStored wRes3 (some wDevStored) wReqEmpty).1
      rfl (by decide),
   (upsert_preserves_credentials wEnvD wEnvD {} wDevStored wRes3 (some wDevStored) wReqEmpty).2.1
      rfl (by decide),
   (upsert_preserves_credentials wEnvD wEnvD {} wDevStored wRes3 (some wDevStored) wReqEmpty).2.2.2.2
      (by decide) rfl rfl (by rfl)⟩

/-- Claim C4: `EncryptToBase64` fails for every key whose length is not
16, 24 or 32 and for every IV whose length is not 16; on valid lengths
it returns the standard base64 encoding of the CBC encryption (under
the block primitive) of the PKCS#7-padded plaintext, the padding
aligning to the 16-byte block size while keeping the plaintext as the
initial segment; and identical inputs yield identical ciphertext. -/
theorem encryptToBase64_contract (blockEnc : List Nat → List Nat → List Nat)
    (p k iv p' k' iv' : List Nat) :
    (¬(k.length = 16 ∨ k.length = 24 ∨ k.length = 32) →
      crypto.EncryptToBase64 blockEnc p k iv = .error "crypto/aes: invalid key size") ∧
    ((k.length = 16 ∨ k.length = 24 ∨ k.length = 32) → iv.length ≠ 16 →
      crypto.EncryptToBase64 blockEnc p k iv = .error "iv must be 16 bytes") ∧
    ((k.length = 16 ∨ k.length = 24 ∨ k.length = 32) → iv.length = 16 →
      crypto.EncryptToBase64 blockEnc p k iv =
        .ok (crypto.base64Encode ((crypto.cbcChain (blockEnc k) iv
          (crypto.chunks16 (crypto.pkcs7Pad p 16))).flatten))) ∧
    ((crypto.pkcs7Pad p 16).length % 16 = 0) ∧
    ((crypto.pkcs7Pad p 16).take p.length = p) ∧
    (p = p' → k = k' → iv = iv' →
      crypto.EncryptToBase64 blockEnc p k iv = crypto.EncryptToBase64 blockEnc p' k' iv') := by
  refine ⟨?_, ?_, ?_, ?_, ?_, ?_⟩
  · intro hk
    simp only [crypto.EncryptToBase64, if_pos hk]
  · intro hk hiv
    rw [crypto.EncryptToBase64, if_neg (fun h => h hk), if_neg (by tauto), if_pos hiv]
  · intro hk hiv
    rw [crypto.EncryptToBase64, if_neg (fun h => h hk), if_neg (by tauto), if_neg (by simp [hiv])]
  · simp only [crypto.pkcs7Pad, List.length_append, List.length_replicate]
    omega
  · simp only [crypto.pkcs7Pad]
    exact List.take_left p _
  · rintro rfl rfl rfl
    rfl

/-- Witness for C4: a valid run and an invalid-key run at concrete
bytes. -/
theorem encryptToBase64_contract_witness :
    crypto.EncryptToBase64 wBlock [1, 2, 3] (List.replicate 16 0) (List.replicate 16 0) =
      .ok (crypto.base64Encode ((crypto.cbcChain (wBlock (List.replicate 16 0))
        (List.replicate 16 0) (crypto.chunks16 (crypto.pkcs7Pad [1, 2, 3] 16))).flatten)) ∧
    crypto.EncryptToBase64 wBlock [1, 2, 3] [0] (List.replicate 16 0) =
      .error "crypto/aes: invalid key size" :=
  ⟨(encryptToBase64_contract wBlock [1, 2, 3] (List.replicate 16 0) (List.replicate 16 0)
      [] [] []).2.2.1 (by decide) (by decide),
   (encryptToBase64_contract wBlock [1, 2, 3] [0] (List.replicate 16 0) [] [] []).1 (by decide)⟩

/-- Claim C5: when the merged secret length is not 16, 24 or 32, or the
merged IV length differs from the configured one, `Upsert` returns the
corresponding credential-validation error and the stored record is
untouched. -/
theorem upsert_invalid_credential (env : DeviceEnv) (cfg : CryptoConfig)
    (stored : Option Device) (req : DeviceRequest) (k v : String)
    (htok : goTrim req.deviceToken ≠ "")
    (hk : mergedEncodeKey env.gen cfg stored req = .ok k)
    (hv : mergedIV env.gen cfg stored req = .ok v)
    (hbad : isValidKeyLength k = false ∨ goLen v ≠ cfg.ivBytes) :
    (Upsert env cfg stored req = .error "encodeKey must be 16, 24 or 32 characters" ∨
     Upsert env cfg stored req = .error ("iv must be " ++ toString cfg.ivBytes ++ " characters")) ∧
    UpsertStore env cfg stored req = stored := by
  have hU : Upsert env cfg stored req =
      validateAndRegister env cfg (mergeDevice cfg stored req k v) := by
    simp only [Upsert, if_neg htok, hk, hv]
  by_cases hkv : isValidKeyLength k = true
  · have hbad2 : goLen v ≠ cfg.ivBytes := by
      rcases hbad with h1 | h2
      · rw [hkv] at h1
        cases h1
      · exact h2
    have hE : Upsert env cfg stored req =
        .error ("iv must be " ++ toString cfg.ivBytes ++ " characters") := by
      rw [hU]
      simp only [validateAndRegister, mergeDevice_encodeKey, mergeDevice_iv, hkv]
      simp [hbad2]
    exact ⟨Or.inr hE, by simp [UpsertStore, hE]⟩
  · have hkv' : isValidKeyLength k = false := by
      cases h : isValidKeyLength k
      · rfl
      · exact absurd h hkv
    have hE : Upsert env cfg stored req =
        .error "encodeKey must be 16, 24 or 32 characters" := by
      rw [hU]
      simp [validateAndRegister, mergeDevice_encodeKey, hkv']
    exact ⟨Or.inl hE, by simp [UpsertStore, hE]⟩

/-- Witness for C5: a 5-character secret is rejected and nothing is
stored. -/
theorem upsert_invalid_credential_witness :
    (Upsert wEnvD {} none wReqShort = .error "encodeKey must be 16, 24 or 32 characters" ∨
     Upsert wEnvD {} none wReqShort = .error ("iv must be " ++ toString (16 : Nat) ++ " characters")) ∧
    UpsertStore wEnvD {} none wReqShort = none :=
  upsert_invalid_credential wEnvD {} none wReqShort "short" "0123456789abcdef"
    (by decide) (by rfl) (by rfl) (Or.inl (by decide))

/-- Claim C6: a broadcast whose body trims to empty fails with the
validation error before anything happens: no results, no log entries,
and an outcome independent of the store and the environment. -/
theorem broadcast_empty_body (env : NoticeEnv) (store : List Device) (req : NoticeRequest)
    (h : goTrim req.body = "") :
    Broadcast env store req =
      { summary := {}, results := [], err := some "body is required", logs := [] } := by
  simp only [Broadcast, if_pos h]

/-- Witness for C6: a whitespace-only body. -/
theorem broadcast_empty_body_witness :
    Broadcast wEnvN [wDevGood] { body := " " } =
      { summary := {}, results := [], err := some "body is required", logs := [] } :=
  broadcast_empty_body wEnvN [wDevGood] { body := " " } (by decide)

/-- Claim C7 (amended): with no explicit keys, the resolved target set
consists exactly of the devices whose trimmed, upper-cased status is
empty or `ACTIVE`; a device whose normalized status is anything else is
never targeted, but an empty (or differently-cased) status is treated
as active. -/
theorem pickTargets_default_active (store : List Device) (d : Device) :
    d ∈ (pickTargets store []).1 ↔
      d ∈ store ∧ (goUpper (goTrim d.status) = "" ∨ goUpper (goTrim d.status) = DeviceStatusActive) := by
  simp [pickTargets, ListActiveDevices, List.mem_filter, isActiveStatus]

/-- Counterexample for C7 as stated: a device whose status is the empty
string (which is not `ACTIVE`) is resolved as a target of a broadcast
that names no explicit keys, and the broadcast is sent to it. -/
theorem pickTargets_blankStatus_counterexample :
    (pickTargets [wDevBlankStatus] []).1 = [wDevBlankStatus] ∧
    wDevBlankStatus.status ≠ DeviceStatusActive ∧
    (Broadcast wEnvN [wDevBlankStatus] { body := "hi" }).summary.sendNum = 1 := by
  refine ⟨by decide, by decide, by decide⟩

/-- Claim C8 (amended): after upper-casing, an empty or whitespace-only
request status is stored as `ACTIVE`; any other status string is stored
upper-cased as-is, with no validity check. -/
theorem upsert_status_normalization (env : DeviceEnv) (cfg : CryptoConfig)
    (stored : Option Device) (req : DeviceRequest) (d' : Device)
    (h : Upsert env cfg stored req = .ok d') :
    (goTrim (goUpper req.status) = "" → d'.status = DeviceStatusActive) ∧
    (goTrim (goUpper req.status) ≠ "" → d'.status = goUpper req.status) := by
  obtain ⟨_, _, _, _, _, _, hstat, _⟩ := Upsert_ok_shape env cfg stored req d' h
  constructor
  · intro he
    rw [hstat]
    simp [firstNonEmpty, he]
    decide
  · intro hne
    rw [hstat]
    simp [firstNonEmpty, hne]

/-- Witness for C8 (amended): the status word `bogus` is stored
upper-cased. -/
theorem upsert_status_witness :
    wRes8.status = goUpper wReq8.status :=
  (upsert_status_normalization wEnvD {} none wReq8 wRes8 (by rfl)).2 (by decide)

/-- Counterexample for C8 as stated: upserting with the invalid status
word `bogus` stores `BOGUS`, not `ACTIVE`. -/
theorem upsert_status_counterexample :
    (UpsertStore wEnvD {} none wReq8).map Device.status = some "BOGUS" ∧
    "BOGUS" ≠ DeviceStatusActive := by
  constructor
  · decide
  · decide

/-- Claim C9: `Query` normalizes the page to at least 1 and the page
size into `[1,100]`, reports the filtered total, returns an empty page
(never an error) when the page is out of range, and on 25 filtered
entries with page 3 and page size 10 returns the final 5 entries with
`pages = 3`. -/
theorem query_pagination (f : NoticeLogFilter) (logs : List NoticeLog) :
    (1 ≤ (Query f logs).pageNum ∧ 1 ≤ (Query f logs).pageSize ∧ (Query f logs).pageSize ≤ 100) ∧
    ((Query f logs).total = ((filteredLogs f logs).length : Int)) ∧
    (((Query f logs).pageNum - 1) * (Query f logs).pageSize ≥ (Query f logs).total →
      (Query f logs).data = []) ∧
    ((filteredLogs f logs).length = 25 → f.page = 3 → f.pageSize = 10 →
      (Query f logs).data = (filteredLogs f logs).drop 20 ∧
      (Query f logs).data.length = 5 ∧
      (Query f logs).pages = 3) := by
  refine ⟨⟨?_, ?_, ?_⟩, ?_, ?_, ?_⟩
  · simp only [Query]
    split_ifs <;> omega
  · simp only [Query]
    split_ifs <;> omega
  · simp only [Query]
    split_ifs <;> omega
  · simp only [Query]
  · simp only [Query]
    intro hge
    have hps0 : (0:Int) < (if f.pageSize ≤ 0 then 10 else if 100 < f.pageSize then 100 else f.pageSize) := by
      split_ifs <;> omega
    generalize hps : (if f.pageSize ≤ 0 then (10:Int) else if 100 < f.pageSize then 100 else f.pageSize) = ps at hge hps0 ⊢
    generalize hpg : (if f.page ≤ 0 then (1:Int) else f.page) = page at hge ⊢
    generalize hflt : filteredLogs f logs = flt at hge ⊢
    generalize hP : (page - 1) * ps = P at hge ⊢
    have hstart : (if ((flt.length : Int)) < P then ((flt.length : Int)) else P) = (flt.length : Int) := by
      split_ifs <;> omega
    rw [hstart]
    have hstop : (if ((flt.length : Int)) < (flt.length : Int) + ps then ((flt.length : Int)) else (flt.length : Int) + ps) = (flt.length : Int) := by
      split_ifs <;> omega
    rw [hstop]
    simp
  · intro hlen hp hs
    have h20 : ((3:Int) - 1) * 10 = 20 := by norm_num
    simp only [Query, hp, hs, hlen, h20]
    norm_num
    refine ⟨?_, ?_⟩
    · rw [show Int.toNat 5 = 5 from rfl, show Int.toNat 20 = 20 from rfl]
      exact List.take_of_length_le (by simp [hlen])
    · rw [show Int.toNat 5 = 5 from rfl, show Int.toNat 20 = 20 from rfl, hlen]
      decide

/-- Witness for C9: the 25-entry, page-3, size-10 scenario. -/
theorem query_pagination_witness :
    (Query wFilter wLogs).data = (filteredLogs wFilter wLogs).drop 20 ∧
    (Query wFilter wLogs).data.length = 5 ∧
    (Query wFilter wLogs).pages = 3 :=
  (query_pagination wFilter wLogs).2.2.2 (by decide) rfl rfl

/-- Claim C10: a successful `Upsert` over an existing device stores the
request's name verbatim — an empty request name erases a non-empty
stored name — in contrast with the secret and IV, which are preserved
when the request omits them. -/
theorem upsert_name_verbatim (env : DeviceEnv) (cfg : CryptoConfig) (d : Device)
    (req : DeviceRequest) (d' : Device) (h : Upsert env cfg (some d) req = .ok d') :
    d'.name = req.name ∧
    (req.name = "" → d'.name = "") ∧
    (req.encodeKey = "" → d.encodeKey ≠ "" → d'.encodeKey = d.encodeKey) ∧
    (req.iv = "" → d.iv ≠ "" → d'.iv = d.iv) := by
  obtain ⟨ekey, ivv, hek, hiv, _, hname, _, hdke, hdkv, _⟩ :=
    Upsert_ok_shape env cfg (some d) req d' h
  refine ⟨hname, fun he => by rw [hname, he], ?_, ?_⟩
  · intro hre hde
    rw [mergedEncodeKey_of_stored env.gen cfg d req hre hde] at hek
    rw [hdke, Except.ok.inj hek]
  · intro hri hdi
    rw [mergedIV_of_stored env.gen cfg d req hri hdi] at hiv
    rw [hdkv, Except.ok.inj hiv]

/-- Witness for C10: an empty request name erases the stored name while
the stored credentials survive. -/
theorem upsert_name_verbatim_witness :
    wRes3.name = "" ∧ wRes3.encodeKey = wDevStored.encodeKey ∧ wRes3.iv = wDevStored.iv :=
  ⟨(upsert_name_verbatim wEnvD {} wDevStored wReqEmpty wRes3 (by rfl)).2.1 rfl,
   (upsert_name_verbatim wEnvD {} wDevStored wReqEmpty wRes3 (by rfl)).2.2.1 rfl (by decide),
   (upsert_name_verbatim wEnvD {} wDevStored wReqEmpty wRes3 (by rfl)).2.2.2 rfl (by decide)⟩

end BarkProxy
